import Mathlib

/-!
Verification of the cap-data repository against its natural-language
specification.

The repository is a collection of ten Python scripts that build branded
charts (plotly) and assemble PDF reports (reportlab).  This file gives a
shallow embedding of the parts of the code the claims are about:

* the color-constant tables of the scripts and the color lists applied to
  concrete charts (`create_cap_graphics.py`, `fortune500_graphics.py`,
  `convert_to_images.py`, `Python/create_20_visualizations.py`);
* the try/except blocks of every script, as a transcription of which
  operations each block wraps;
* a per-script summary of what each script's entry point does;
* the visualization functions `create_3d_scatter`
  (`create_cool_visualizations_fixed.py`) and `create_roi_by_disaster`
  (`Python/create_20_visualizations.py`), the first of which samples
  unseeded random noise, modelled as an explicit noise stream argument;
* the `CalloutBox` word-wrapping loop, height computation and draw loop of
  `create_pdf_simple.py` and `create_professional_pdf.py`;
* the `NumberedCanvas` subclasses of `create_professional_pdf.py`,
  `create_pdf_simple.py` and `create_real_cap_pdf.py`, over a functional
  model of the reportlab canvas (`_startPage` increments `_pageNumber` and
  resets the page content; `Canvas.showPage` emits the accumulated page);
* the `add_visualization` helper of `create_fortune500_pdf.py`.

Lengths in points throughout; `inch = 72`.  Python floats are modelled by
`ℚ`; every constant involved is an exact decimal and no comparison in the
modelled code is close enough to a boundary for rounding to matter.
-/

namespace CapData

/-! ## Color constants (C2)

Transcriptions of the color-constant tables, keyed by the Python
identifier or dictionary key. -/

/-- `cap_colors` of `create_cap_graphics.py` lines 8-14. -/
def capColors : List (String × String) :=
  [("primary", "#ED1B2E"), ("secondary", "#6B7280"), ("accent", "#1E40AF"),
   ("success", "#059669"), ("warning", "#D97706")]

/-- `ARC_COLORS` of `fortune500_graphics.py` lines 23-32. -/
def arcColorsF500 : List (String × String) :=
  [("primary", "#CC0000"), ("secondary", "#6B7C93"), ("background", "#FFFFFF"),
   ("text", "#000000"), ("accent_light", "#E6F3FF"), ("accent_dark", "#2C5282"),
   ("success", "#059669"), ("warning", "#D97706")]

/-- The module-level color constants of `convert_to_images.py` lines 13-17. -/
def convertImagesColors : List (String × String) :=
  [("ARC_RED", "#CC0000"), ("ARC_GRAY", "#6B7C93"),
   ("ARC_DARK_GRAY", "#4A5568"), ("ARC_LIGHT_GRAY", "#E2E8F0")]

/-- The module-level color constants of
`Python/create_20_visualizations.py` lines 18-23. -/
def viz20Colors : List (String × String) :=
  [("ARC_RED", "#CC0000"), ("ARC_GRAY", "#6B7C93"), ("ARC_DARK_GRAY", "#4A5568"),
   ("ARC_LIGHT_GRAY", "#E2E8F0"), ("ARC_BLACK", "#000000"), ("ARC_WHITE", "#FFFFFF")]

/-- The red/gray/white/black brand set the spec's glossary describes.  The
only concrete such set in the repository is the one documented in the
header comment of `Python/create_20_visualizations.py` line 4:
"#CC0000 (red), #6B7C93 (gray), white, black". -/
def brandCore : List String := ["#CC0000", "#6B7C93", "#FFFFFF", "#000000"]

/-- Look a key up in a color table (Python `cap_colors['accent']` etc.). -/
def colorOf (table : List (String × String)) (key : String) : String :=
  ((table.find? (fun p => p.1 == key)).map Prod.snd).getD ""

/-- The `marker_color` list of the hazard-type bar trace of
`create_roi_comparison`, `create_cap_graphics.py` line 37:
`[cap_colors['primary'], cap_colors['accent'], cap_colors['warning']]`. -/
def roiComparisonHazardColors : List String :=
  [colorOf capColors "primary", colorOf capColors "accent", colorOf capColors "warning"]

/-- The pie-slice color list of `create_cost_containment_donut`,
`fortune500_graphics.py` lines 195-196. -/
def fortuneDonutColors : List String :=
  [colorOf arcColorsF500 "primary", colorOf arcColorsF500 "secondary",
   colorOf arcColorsF500 "accent_dark", colorOf arcColorsF500 "success",
   colorOf arcColorsF500 "warning"]

/-- The `marker_colors` list of `create_cost_containment_donut`,
`Python/create_20_visualizations.py` line 108: four table constants plus
the inline hex literal `'#F0A0A0'`, which appears in no color table. -/
def viz20DonutColors : List String :=
  [colorOf viz20Colors "ARC_RED", colorOf viz20Colors "ARC_GRAY",
   colorOf viz20Colors "ARC_DARK_GRAY", colorOf viz20Colors "ARC_LIGHT_GRAY",
   "#F0A0A0"]

/-- The `marker_colors` list of `create_partner_distribution`,
`Python/create_20_visualizations.py` lines 477-478: table constants mixed
with the inline hex literals `'#E53E3E'`, `'#F0A0A0'` and `'#CBD5E0'`.
(The partner-type bars of `create_roi_comparison`,
`create_cap_graphics.py` line 50, likewise take their colors from outside
the table: `px.colors.sequential.Reds_r[:5]`, a plotly builtin scale
whose hex values live in the plotly library, outside this repository.) -/
def viz20PartnerColors : List String :=
  [colorOf viz20Colors "ARC_RED", "#E53E3E", colorOf viz20Colors "ARC_GRAY",
   colorOf viz20Colors "ARC_DARK_GRAY", colorOf viz20Colors "ARC_LIGHT_GRAY",
   "#F0A0A0", "#CBD5E0"]

/-! ## Try/except blocks (C1)

One entry per `try:` statement in the repository, recording which
operations the `try` body performs.  The enumeration is exhaustive: these
are all the `try:` occurrences in the ten scripts. -/

/-- The kind of operation a try body performs. -/
inductive OpKind where
  | imageExport      -- `fig.write_image(...)` static-image export
  | htmlExport       -- `fig.write_html(...)`
  | figureCreation   -- calling a chart-construction function
  | imageEmbed       -- `Image(viz_path, ...)` embedding into a PDF story
  | pdfBuild         -- building a whole PDF report
  | subprocessCall   -- `subprocess.run(['open', pdf_path], ...)`
deriving DecidableEq

/-- One `try/except` block: the script, its line span, and the kinds of
operation the `try` body performs. -/
structure TryBlock where
  script : String
  firstLine : Nat
  lastLine : Nat
  wrapped : List OpKind
deriving DecidableEq

/-- All `try/except` blocks in the repository.
* `convert_to_images.py` 61-77: wraps `fig = func()` and two
  `fig.write_image` calls;
* `create_cap_graphics.py` 463-472: wraps seven `write_image` calls;
* `create_cool_visualizations_fixed.py` 26-28 (`save_figure`): wraps one
  `write_image` call;
* `create_fortune500_pdf.py` 311-315 (`add_visualization`): wraps
  `Image(viz_path, ...)` embedding;
* `create_fortune500_pdf.py` 761-771 (`__main__`): wraps
  `create_pdf_report()`, the whole PDF build;
* `create_fortune500_pdf.py` 765-768 (nested): wraps
  `subprocess.run(['open', pdf_path], check=True)`;
* `create_pdf_simple.py` 533-545 (`__main__`): wraps
  `create_professional_pdf()`, the whole PDF build;
* `fortune500_graphics.py` 595-600: wraps a loop of `write_image` calls;
* `fortune500_graphics.py` 660-662: wraps one `write_image` call;
* `fortune500_graphics.py` 670-679 (`main`): wraps
  `export_all_visualizations()`, which writes HTML and PNG files;
* `Python/create_cool_visualizations.py` 31-33 (`save_figure`): wraps one
  `write_image` call. -/
def tryBlocks : List TryBlock :=
  [⟨"convert_to_images.py", 61, 77, [.figureCreation, .imageExport]⟩,
   ⟨"create_cap_graphics.py", 463, 472, [.imageExport]⟩,
   ⟨"create_cool_visualizations_fixed.py", 26, 28, [.imageExport]⟩,
   ⟨"create_fortune500_pdf.py", 311, 315, [.imageEmbed]⟩,
   ⟨"create_fortune500_pdf.py", 761, 771, [.pdfBuild]⟩,
   ⟨"create_fortune500_pdf.py", 765, 768, [.subprocessCall]⟩,
   ⟨"create_pdf_simple.py", 533, 545, [.pdfBuild]⟩,
   ⟨"fortune500_graphics.py", 595, 600, [.imageExport]⟩,
   ⟨"fortune500_graphics.py", 660, 662, [.imageExport]⟩,
   ⟨"fortune500_graphics.py", 670, 679, [.htmlExport, .imageExport]⟩,
   ⟨"Python/create_cool_visualizations.py", 31, 33, [.imageExport]⟩]

/-! ## Per-script entry-point summaries (C7) -/

/-- Kind of output file a script writes. -/
inductive FileKind where
  | html
  | png
  | jpg
  | pdf
deriving DecidableEq

/-- What a script's entry point (its `__main__` block, or its top-level
code for `convert_to_images.py`) does, transcribed from the source. -/
structure ScriptRun where
  name : String
  /-- the script defines literal data arrays (inline lists/dicts of
  numbers and strings) -/
  definesLiteralData : Bool
  /-- the script calls chart-construction functions (plotly figures) -/
  callsChartConstruction : Bool
  /-- the script applies the brand color constants to its output -/
  appliesBrandColors : Bool
  /-- the kinds of output file written to disk -/
  outputs : List FileKind
deriving DecidableEq

/-- The ten scripts of the repository.
* `convert_to_images.py`: defines the literal `viz_functions` table, calls
  the `create_*` chart functions of `create_20_visualizations`, writes
  PNG and JPG files (lines 60-78);
* `create_cap_graphics.py` `__main__` 441-476: builds seven figures,
  writes HTML and (best-effort) PNG;
* `create_cool_visualizations_fixed.py`: `main` builds figures,
  `save_figure` writes HTML and best-effort PNG;
* `create_fortune500_pdf.py` `__main__` 760-773: assembles a PDF from
  text and pre-rendered images; constructs no chart;
* `create_pdf_simple.py` `__main__` 531-546: pure-reportlab PDF, no
  chart construction ("Simplified version without image dependencies");
* `create_professional_pdf.py` `__main__` 352-364: builds plotly figures
  (e.g. `create_cap_graphics.create_roi_comparison()` at line 270),
  writes PNGs of them and a PDF;
* `create_real_cap_pdf.py` `__main__` 244-245: reads the report text file
  and builds a PDF; constructs no chart (its styling is black
  Times-Roman text; black is one of the brand colors);
* `fortune500_graphics.py` `__main__` 683-684: builds charts, writes
  HTML and best-effort PNG;
* `Python/create_20_visualizations.py` `__main__` 989-990: builds 24
  charts, `save_figure` writes HTML only;
* `Python/create_cool_visualizations.py` `__main__`: builds charts,
  writes HTML and best-effort PNG. -/
def scripts : List ScriptRun :=
  [⟨"convert_to_images.py", true, true, true, [.png, .jpg]⟩,
   ⟨"create_cap_graphics.py", true, true, true, [.html, .png]⟩,
   ⟨"create_cool_visualizations_fixed.py", true, true, true, [.html, .png]⟩,
   ⟨"create_fortune500_pdf.py", true, false, true, [.pdf]⟩,
   ⟨"create_pdf_simple.py", true, false, true, [.pdf]⟩,
   ⟨"create_professional_pdf.py", true, true, true, [.png, .pdf]⟩,
   ⟨"create_real_cap_pdf.py", true, false, true, [.pdf]⟩,
   ⟨"fortune500_graphics.py", true, true, true, [.html, .png]⟩,
   ⟨"Python/create_20_visualizations.py", true, true, true, [.html]⟩,
   ⟨"Python/create_cool_visualizations.py", true, true, true, [.html, .png]⟩]

/-- The three scripts whose entry point assembles a PDF without calling
any chart-construction function. -/
def pdfAssemblyScripts : List String :=
  ["create_fortune500_pdf.py", "create_pdf_simple.py", "create_real_cap_pdf.py"]

/-! ## Visualization functions (C3)

`create_3d_scatter` (`create_cool_visualizations_fixed.py` lines 34-77)
perturbs its literal data with unseeded `np.random.normal` draws.  The
randomness is modelled as an explicit stream `noise : ℕ → ℚ` of the draws
in program order: draws 0-29 are the `roi` perturbations, 30-59 the
`speed` ones, 60-89 the `quality` ones.  `create_roi_by_disaster`
(`Python/create_20_visualizations.py` lines 38-70) transcribes literal
data only; it takes the same stream argument and ignores it. -/

/-- The data of a plotly scatter/bar figure, as far as the claims need:
the coordinate lists and the marker color list. -/
structure FigData where
  x : List ℚ
  y : List ℚ
  z : List ℚ
  markerColors : List String
deriving DecidableEq

/-- `partners`, `roi`, `speed`, `quality` base literals of
`create_3d_scatter` lines 35-41: each ten-element list repeated 3 times. -/
def scatter3dBaseRoi : List ℚ :=
  (List.replicate 3 [(33.5 : ℚ), 32.1, 30.1, 28.5, 26.3, 24.2, 23.0, 4.9, 22.5, 25.0]).flatten

def scatter3dBaseSpeed : List ℚ :=
  (List.replicate 3 [(95 : ℚ), 92, 88, 85, 82, 78, 75, 65, 80, 83]).flatten

def scatter3dBaseQuality : List ℚ :=
  (List.replicate 3 [(98 : ℚ), 95, 92, 90, 88, 85, 83, 75, 87, 89]).flatten

/-- Add one noise draw per element, consuming the stream from `start` on
(the `[v + np.random.normal(..) for v in vs]` comprehensions at lines
44-46, with the draws indexed in program order). -/
def addNoise (noise : ℕ → ℚ) : ℕ → List ℚ → List ℚ
  | _, [] => []
  | start, v :: vs => (v + noise start) :: addNoise noise (start + 1) vs

/-- `create_3d_scatter` of `create_cool_visualizations_fixed.py`: the
figure's data is the literal base values plus the noise draws. -/
def create_3d_scatter (noise : ℕ → ℚ) : FigData :=
  { x := addNoise noise 0 scatter3dBaseRoi
    y := addNoise noise 30 scatter3dBaseSpeed
    z := addNoise noise 60 scatter3dBaseQuality
    markerColors := [] }

/-- `create_roi_by_disaster` of `Python/create_20_visualizations.py`
lines 38-70: a horizontal bar chart of three literal values with marker
colors `[ARC_RED, ARC_RED, ARC_GRAY]`.  It samples no randomness; the
stream argument makes it comparable with the noisy functions. -/
def create_roi_by_disaster (_noise : ℕ → ℚ) : FigData :=
  { x := [(37.30 : ℚ), 25.53, 9.77]
    y := []
    z := []
    markerColors := [colorOf viz20Colors "ARC_RED", colorOf viz20Colors "ARC_RED",
                     colorOf viz20Colors "ARC_GRAY"] }

/-! ## CalloutBox (C5, C8, C9)

The word-wrapping loop of `CalloutBox.draw` in `create_pdf_simple.py`
lines 74-89 operates on `content.split()`.  The running string
`current_line` is represented by the list of the words it contains; the
Python string it holds is `String.intercalate " "` of that list, because
the loop only ever extends it by `current_line + " " + word` or restarts
it at `word`.  The branch tests transcribe
`len(current_line + " " + word) <= max_chars_per_line` and the truthiness
test `if current_line:`; the representation is exact whenever every word
is nonempty, which is true of every `str.split()` output. -/

/-- The string a word list renders to: the words separated by single
spaces, built exactly as the loop builds `current_line` (an append of
`" " ++ word` for every word after the first). -/
def joinWords : List String → String
  | [] => ""
  | w :: ws => ws.foldl (fun acc v => acc ++ " " ++ v) w

/-- `max_chars_per_line = 65` (`create_pdf_simple.py` line 75). -/
def maxCharsPerLine : ℕ := 65

/-- The loop state: `current_line` (as its words) and the accumulated
`lines`. -/
structure WrapState where
  cur : List String
  lines : List (List String)
deriving DecidableEq

/-- One iteration of the `for word in words` loop, lines 80-86. -/
def wrapStep (st : WrapState) (word : String) : WrapState :=
  if (joinWords st.cur ++ " " ++ word).length ≤ maxCharsPerLine then
    { st with cur := st.cur ++ [word] }
  else if st.cur.isEmpty then
    { st with cur := [word] }
  else
    { cur := [word], lines := st.lines ++ [st.cur] }

/-- The whole loop (lines 76-86) from the empty state. -/
def wrapRun (words : List String) : WrapState :=
  words.foldl wrapStep ⟨[], []⟩

/-- The final `lines` after the trailing flush
`if current_line: lines.append(current_line)` (lines 88-89). -/
def wrapLines (words : List String) : List (List String) :=
  let st := wrapRun words
  if st.cur.isEmpty then st.lines else st.lines ++ [st.cur]

/-- One inch, in points. -/
def inch : ℚ := 72

/-- `CalloutBox._calculate_height` of `create_pdf_simple.py` lines 40-50,
as a function of `len(self.content)`. -/
def calcHeightSimple (charCount : ℕ) : ℚ :=
  if charCount < 50 then 1.0 * inch
  else if charCount < 100 then 1.3 * inch
  else if charCount < 150 then 1.6 * inch
  else 2.0 * inch

/-- `CalloutBox._calculate_height` of `create_professional_pdf.py` lines
46-49: `lines = len(self.content) / 50` (true division), then
`max(1.5 * inch, (0.5 + lines * 0.2) * inch)`. -/
def calcHeightProf (charCount : ℕ) : ℚ :=
  max (1.5 * inch) ((0.5 + ((charCount : ℚ) / 50) * 0.2) * inch)

/-- The drawing loop of `create_pdf_simple.py` lines 92-96: starting from
`y_position`, a line is drawn only while `y_position > 0.2 * inch`, and
`y_position` decreases by `0.18 * inch` after each drawn line (the
decrement is inside the guard).  Returns the lines actually drawn. -/
def drawLoop : List (List String) → ℚ → List (List String)
  | [], _ => []
  | l :: rest, y =>
    if 0.2 * inch < y then l :: drawLoop rest (y - 0.18 * inch)
    else drawLoop rest y

/-- The lines `CalloutBox.draw` of `create_pdf_simple.py` draws for a
content of length `charCount` wrapping to `words`:
`y_position` starts at `self.height - 0.55 * inch` (line 92). -/
def drawnLinesSimple (charCount : ℕ) (words : List String) : List (List String) :=
  drawLoop (wrapLines words) (calcHeightSimple charCount - 0.55 * inch)

/-- The sequence of words drawn across the wrapped lines. -/
def drawnWordsSimple (charCount : ℕ) (words : List String) : List String :=
  (drawnLinesSimple charCount words).flatten

/-- How many wrapped lines fit above `0.2 * inch` for each of the four
possible heights: 2 for height 1.0in, 4 for 1.3in, 5 for 1.6in, 7 for
2.0in. -/
def maxLinesFor (charCount : ℕ) : ℕ :=
  if charCount < 50 then 2
  else if charCount < 100 then 4
  else if charCount < 150 then 5
  else 7

/-- A 65-character word; eight of them wrap to eight one-word lines, of
which only seven are drawn. -/
def longWord : String := String.mk (List.replicate 65 'a')

/-- Eight copies of the 65-character word: the demonstration content
`longWord ++ " " ++ ... ++ " " ++ longWord` has length 527 ≥ 150, so the
box height is 2.0 inches and only 7 of the 8 wrapped lines are drawn. -/
def demoWords : List String := List.replicate 8 longWord

/-! ## NumberedCanvas (C4, C10)

A functional model of the reportlab canvas as the three `NumberedCanvas`
subclasses use it.  The canvas core state is the current page number
`_pageNumber` and the accumulated drawing operations of the current page.
`Canvas.__init__` sets `_pageNumber = 1`; `Canvas._startPage` increments
`_pageNumber` and resets the page accumulator; `Canvas.showPage` emits
the accumulated page and then starts a new one.  The state dict copied by
`dict(self.__dict__)` contains both fields (the accumulator is rebound,
not mutated, on `_startPage`, so the copy is faithful).

`doc.build(story, canvasmaker=NumberedCanvas)` lays out the story, draws
each page's flowables on the canvas and calls the (subclassed) `showPage`
after each page, then calls the (subclassed) `save`. -/

/-- A drawing operation recorded on a page. -/
inductive PageOp where
  /-- content drawn by the document layout -/
  | doc (s : String)
  /-- a header string drawn by `draw_page_number` -/
  | headerText (s : String)
  /-- the red rule under the header -/
  | headerRule
  /-- the text `Page i of n` -/
  | pageStamp (i n : ℕ)
  /-- the bare text `str(i)` (`create_real_cap_pdf.py`) -/
  | pageNum (i : ℕ)
deriving DecidableEq

/-- The base-canvas per-page state: `_pageNumber` and the operations
accumulated on the current page. -/
structure CoreState where
  pageNumber : ℕ
  code : List PageOp
deriving DecidableEq

/-- `Canvas._startPage`: increment `_pageNumber`, reset the accumulator. -/
def startPage (c : CoreState) : CoreState :=
  { pageNumber := c.pageNumber + 1, code := [] }

/-- The whole canvas state: the core, the `_saved_page_states` list of the
`NumberedCanvas` subclasses, and the pages emitted so far. -/
structure CanvasState where
  core : CoreState
  saved : List CoreState
  emitted : List (List PageOp)
deriving DecidableEq

/-- `canvas.Canvas.showPage`: emit the accumulated page, start a new one. -/
def baseShowPage (st : CanvasState) : CanvasState :=
  { st with emitted := st.emitted ++ [st.core.code], core := startPage st.core }

/-- `NumberedCanvas.showPage` (all three variants):
`self._saved_page_states.append(dict(self.__dict__)); self._startPage()` —
the state is saved and no page is emitted. -/
def ncShowPage (st : CanvasState) : CanvasState :=
  { st with saved := st.saved ++ [st.core], core := startPage st.core }

/-- Draw a list of document operations on the current page. -/
def drawDoc (ops : List String) (st : CanvasState) : CanvasState :=
  { st with core := { st.core with code := st.core.code ++ ops.map PageOp.doc } }

/-- The fresh canvas handed to `doc.build` by the professional and simple
scripts: `Canvas.__init__` leaves `_pageNumber = 1`. -/
def initCanvas : CanvasState := ⟨⟨1, []⟩, [], []⟩

/-- The fresh canvas of `create_real_cap_pdf.py`, whose `__init__`
additionally sets `self._pageNumber = 0` (line 27). -/
def initCanvasReal : CanvasState := ⟨⟨0, []⟩, [], []⟩

/-- The layout phase of `doc.build`: draw each page's flowables and call
the subclass `showPage`. -/
def buildPages (pages : List (List String)) (st : CanvasState) : CanvasState :=
  pages.foldl (fun acc p => ncShowPage (drawDoc p acc)) st

/-- `draw_page_number` of `create_professional_pdf.py` lines 113-134:
on every page, draw the header strings, the `Page i of N` stamp and the
red rule.  `today` stands for `datetime.now().strftime("%B %Y")`. -/
def drawPageNumberProf (today : String) (n : ℕ) (c : CoreState) : CoreState :=
  { c with code := c.code ++
      [PageOp.headerText "Community Adaptation Program Evaluation Report",
       PageOp.headerText today,
       PageOp.pageStamp c.pageNumber n,
       PageOp.headerRule] }

/-- `draw_page_number` of `create_pdf_simple.py` lines 117-143: header,
rule and `Page i of N` stamp only when `self._pageNumber > 1`. -/
def drawPageNumberSimple (n : ℕ) (c : CoreState) : CoreState :=
  if 1 < c.pageNumber then
    { c with code := c.code ++
        [PageOp.headerText "Community Adaptation Program Evaluation Report",
         PageOp.headerText "September 2025",
         PageOp.headerRule,
         PageOp.pageStamp c.pageNumber n] }
  else c

/-- `draw_page_number` of `create_real_cap_pdf.py` lines 42-46: the bare
page number, only when `self._pageNumber > 1`. -/
def drawPageNumberReal (c : CoreState) : CoreState :=
  if 1 < c.pageNumber then { c with code := c.code ++ [PageOp.pageNum c.pageNumber] }
  else c

/-- `NumberedCanvas.save` of the professional and simple variants: for
each saved state, restore it (`self.__dict__.update(state)`), stamp it
with `draw_page_number(num_pages)`, and emit it with
`canvas.Canvas.showPage(self)`. -/
def ncSave (draw : ℕ → CoreState → CoreState) (st : CanvasState) : CanvasState :=
  st.saved.foldl (fun acc s => baseShowPage { acc with core := draw st.saved.length s }) st

/-- `NumberedCanvas.save` of `create_real_cap_pdf.py` lines 33-40: for
each saved state, restore it, then `self._pageNumber += 1`, then
`draw_page_number()`, then emit. -/
def ncSaveReal (st : CanvasState) : CanvasState :=
  st.saved.foldl
    (fun acc s => baseShowPage
      { acc with core := drawPageNumberReal ⟨s.pageNumber + 1, s.code⟩ }) st

/-- A full `doc.build` run with the professional canvas. -/
def runProf (today : String) (pages : List (List String)) : CanvasState :=
  ncSave (drawPageNumberProf today) (buildPages pages initCanvas)

/-- A full `doc.build` run with the simple canvas. -/
def runSimple (pages : List (List String)) : CanvasState :=
  ncSave drawPageNumberSimple (buildPages pages initCanvas)

/-- A full `doc.build` run with the `create_real_cap_pdf.py` canvas. -/
def runReal (pages : List (List String)) : CanvasState :=
  ncSaveReal (buildPages pages initCanvasReal)

/-- The page numbers actually stamped on the emitted pages, in emission
order. -/
def stampedNumbers (emitted : List (List PageOp)) : List ℕ :=
  emitted.flatten.filterMap (fun op =>
    match op with
    | PageOp.pageNum i => some i
    | _ => none)

/-- The expected saved states: page contents numbered consecutively from
`k`. -/
def numberFrom (k : ℕ) : List (List String) → List CoreState
  | [] => []
  | p :: ps => ⟨k, p.map PageOp.doc⟩ :: numberFrom (k + 1) ps

/-! ## add_visualization (C6) -/

/-- A reportlab flowable, as far as `add_visualization` builds them. -/
inductive Flow where
  | para (s : String)
  | image (path : String)
  | spacer (w h : ℚ)
deriving DecidableEq

/-- `add_visualization` of `create_fortune500_pdf.py` lines 305-325,
with the two failure modes explicit: `fileExists` models
`os.path.exists(viz_path)` and `loadOk` models whether
`Image(viz_path, ...)` raises.  On a load failure the except branch
appends the placeholder paragraph `[Visualization: <title>]` (line 317);
on a missing file the else branch appends
`[Visualization: <title> - File not found: <viz_path>]` (line 319). -/
def addVisualization (fileExists loadOk : Bool) (vizPath title description : String)
    (story : List Flow) : List Flow :=
  let story := story ++ [Flow.para title]
  let story :=
    if fileExists then
      if loadOk then story ++ [Flow.image vizPath]
      else story ++ [Flow.para ("[Visualization: " ++ title ++ "]")]
    else
      story ++ [Flow.para ("[Visualization: " ++ title ++ " - File not found: " ++ vizPath ++ "]")]
  let story :=
    if description ≠ "" then story ++ [Flow.spacer 1 6, Flow.para description]
    else story
  story ++ [Flow.spacer 1 12]

/-! ## Lemmas about the word-wrapping loop -/

theorem joinWords_append (ws : List String) (w : String) (h : ws ≠ []) :
    joinWords (ws ++ [w]) = joinWords ws ++ " " ++ w := by
  match ws with
  | [] => exact absurd rfl h
  | a :: as => simp [joinWords, List.foldl_append]

theorem wrapStep_flatten (st : WrapState) (w : String) :
    (wrapStep st w).lines.flatten ++ (wrapStep st w).cur =
      st.lines.flatten ++ (st.cur ++ [w]) := by
  unfold wrapStep
  split_ifs with h1 h2
  · simp
  · rw [List.isEmpty_iff.mp h2]
    simp
  · simp

theorem foldWrap_flatten : ∀ (ws : List String) (st : WrapState),
    (ws.foldl wrapStep st).lines.flatten ++ (ws.foldl wrapStep st).cur =
      st.lines.flatten ++ st.cur ++ ws
  | [], st => by simp
  | w :: ws, st => by
    rw [List.foldl_cons, foldWrap_flatten ws, wrapStep_flatten]
    simp

theorem wrapLines_flatten (ws : List String) : (wrapLines ws).flatten = ws := by
  have h := foldWrap_flatten ws ⟨[], []⟩
  simp only [WrapState.mk.injEq, List.flatten_nil, List.nil_append] at h
  simp only [wrapLines, wrapRun]
  split_ifs with hc
  · rw [List.isEmpty_iff.mp hc, List.append_nil] at h
    exact h
  · rw [List.flatten_append]
    simpa using h

theorem wrapStep_good (st : WrapState) (w : String)
    (hl : ∀ l ∈ st.lines,
      (joinWords l).length ≤ maxCharsPerLine ∨ l.length = 1)
    (hc : st.cur = [] ∨
      ((joinWords st.cur).length ≤ maxCharsPerLine ∨ st.cur.length = 1)) :
    (∀ l ∈ (wrapStep st w).lines,
      (joinWords l).length ≤ maxCharsPerLine ∨ l.length = 1) ∧
    ((wrapStep st w).cur = [] ∨
      ((joinWords (wrapStep st w).cur).length ≤ maxCharsPerLine ∨
        (wrapStep st w).cur.length = 1)) := by
  unfold wrapStep
  split_ifs with h1 h2
  · refine ⟨hl, Or.inr ?_⟩
    rcases eq_or_ne st.cur [] with he | he
    · rw [he]
      exact Or.inr rfl
    · rw [joinWords_append st.cur w he]
      exact Or.inl h1
  · exact ⟨hl, Or.inr (Or.inr rfl)⟩
  · refine ⟨?_, Or.inr (Or.inr rfl)⟩
    intro l hm
    rcases List.mem_append.mp hm with hm | hm
    · exact hl l hm
    · have he : st.cur ≠ [] := fun h => by
        rw [h] at h2
        exact h2 rfl
      rw [List.mem_singleton.mp hm]
      rcases hc with hc | hc
      · exact absurd hc he
      · exact hc

theorem foldWrap_good : ∀ (ws : List String) (st : WrapState),
    (∀ l ∈ st.lines, (joinWords l).length ≤ maxCharsPerLine ∨ l.length = 1) →
    (st.cur = [] ∨
      ((joinWords st.cur).length ≤ maxCharsPerLine ∨ st.cur.length = 1)) →
    (∀ l ∈ (ws.foldl wrapStep st).lines,
      (joinWords l).length ≤ maxCharsPerLine ∨ l.length = 1) ∧
    ((ws.foldl wrapStep st).cur = [] ∨
      ((joinWords (ws.foldl wrapStep st).cur).length ≤ maxCharsPerLine ∨
        (ws.foldl wrapStep st).cur.length = 1))
  | [], st, hl, hc => ⟨hl, hc⟩
  | w :: ws, st, hl, hc => by
    rw [List.foldl_cons]
    have h := wrapStep_good st w hl hc
    exact foldWrap_good ws (wrapStep st w) h.1 h.2

theorem wrapLines_good (ws : List String) :
    ∀ l ∈ wrapLines ws, (joinWords l).length ≤ maxCharsPerLine ∨ l.length = 1 := by
  have h := foldWrap_good ws ⟨[], []⟩ (by simp) (Or.inl rfl)
  simp only [wrapLines, wrapRun]
  split_ifs with hc
  · exact h.1
  · intro l hm
    rcases List.mem_append.mp hm with hm | hm
    · exact h.1 l hm
    · rw [List.mem_singleton.mp hm]
      rcases h.2 with h2 | h2
      · rw [h2] at hc
        exact absurd rfl hc
      · exact h2

/-! ## Lemmas about the drawing loop -/

theorem drawLoop_stop : ∀ (L : List (List String)) (y : ℚ),
    ¬ 0.2 * inch < y → drawLoop L y = []
  | [], _, _ => rfl
  | l :: rest, y, h => by
    rw [drawLoop, if_neg h]
    exact drawLoop_stop rest y h

theorem drawLoop_take : ∀ (L : List (List String)) (n : ℕ) (y : ℚ),
    (∀ i : ℕ, i < n → 0.2 * inch < y - i * (0.18 * inch)) →
    ¬ 0.2 * inch < y - n * (0.18 * inch) →
    drawLoop L y = L.take n
  | [], n, y, _, _ => by simp [drawLoop]
  | l :: rest, 0, y, _, h2 => by
    simp only [Nat.cast_zero, zero_mul, sub_zero] at h2
    rw [drawLoop, if_neg h2, drawLoop_stop rest y h2, List.take_zero]
  | l :: rest, n + 1, y, h1, h2 => by
    have h0 : 0.2 * inch < y := by
      have := h1 0 (Nat.succ_pos n)
      simpa using this
    rw [drawLoop, if_pos h0,
      drawLoop_take rest n (y - 0.18 * inch) ?_ ?_]
    · rfl
    · intro i hi
      have := h1 (i + 1) (by omega)
      push_cast at this ⊢
      linarith
    · push_cast at h2 ⊢
      intro hcon
      exact h2 (by linarith)

/-! ## Lemmas about the canvas model -/

theorem getD_map_of_lt {A B : Type} (f : A -> B) (b : B) (a : A) :
    forall (l : List A) (i : Nat), i < l.length -> (l.map f).getD i b = f (l.getD i a)
  | x :: xs, 0, _ => rfl
  | x :: xs, i + 1, h => getD_map_of_lt f b a xs i (by simpa using h)
  | [], i, h => absurd h (by simp)

theorem numberFrom_length : forall (pages : List (List String)) (k : Nat),
    (numberFrom k pages).length = pages.length
  | [], _ => rfl
  | p :: ps, k => by simp [numberFrom, numberFrom_length ps (k + 1)]

theorem numberFrom_getD : forall (pages : List (List String)) (k i : Nat),
    i < pages.length ->
    (numberFrom k pages).getD i (CoreState.mk 0 []) =
      CoreState.mk (k + i) ((pages.getD i []).map PageOp.doc)
  | [], _, i, h => absurd h (by simp)
  | p :: ps, k, 0, _ => by simp [numberFrom]
  | p :: ps, k, i + 1, h => by
    have ih := numberFrom_getD ps (k + 1) i (by simpa using h)
    simp only [numberFrom, List.getD_cons_succ]
    rw [ih]
    congr 1
    omega

theorem buildPages_spec : forall (pages : List (List String)) (k : Nat)
    (s0 : List CoreState) (e0 : List (List PageOp)),
    buildPages pages (CanvasState.mk (CoreState.mk k []) s0 e0) =
      CanvasState.mk (CoreState.mk (k + pages.length) []) (s0 ++ numberFrom k pages) e0
  | [], k, s0, e0 => by simp [buildPages, numberFrom]
  | p :: ps, k, s0, e0 => by
    have step : ncShowPage (drawDoc p (CanvasState.mk (CoreState.mk k []) s0 e0)) =
        CanvasState.mk (CoreState.mk (k + 1) [])
          (s0 ++ [CoreState.mk k (p.map PageOp.doc)]) e0 := by
      simp [ncShowPage, drawDoc, startPage]
    have ih := buildPages_spec ps (k + 1) (s0 ++ [CoreState.mk k (p.map PageOp.doc)]) e0
    calc buildPages (p :: ps) (CanvasState.mk (CoreState.mk k []) s0 e0)
        = buildPages ps (ncShowPage (drawDoc p (CanvasState.mk (CoreState.mk k []) s0 e0))) := rfl
      _ = buildPages ps (CanvasState.mk (CoreState.mk (k + 1) [])
            (s0 ++ [CoreState.mk k (p.map PageOp.doc)]) e0) := by rw [step]
      _ = CanvasState.mk (CoreState.mk (k + (p :: ps).length) [])
            (s0 ++ numberFrom k (p :: ps)) e0 := by
          rw [ih]
          congr 1
          · congr 1
            simp
            omega
          · simp [numberFrom]

theorem foldSave_emitted (d : CoreState -> CoreState) :
    forall (l : List CoreState) (st : CanvasState),
      (l.foldl (fun acc s => baseShowPage { acc with core := d s }) st).emitted =
        st.emitted ++ l.map (fun s => (d s).code)
  | [], st => by simp
  | s :: ss, st => by
    rw [List.foldl_cons, foldSave_emitted d ss]
    simp [baseShowPage]

theorem ncSave_emitted (draw : Nat -> CoreState -> CoreState) (st : CanvasState) :
    (ncSave draw st).emitted =
      st.emitted ++ st.saved.map (fun s => (draw st.saved.length s).code) :=
  foldSave_emitted (draw st.saved.length) st.saved st

theorem ncSaveReal_emitted (st : CanvasState) :
    (ncSaveReal st).emitted =
      st.emitted ++ st.saved.map
        (fun s => (drawPageNumberReal (CoreState.mk (s.pageNumber + 1) s.code)).code) :=
  foldSave_emitted (fun s => drawPageNumberReal (CoreState.mk (s.pageNumber + 1) s.code)) st.saved st

theorem runProf_emitted (today : String) (pages : List (List String)) :
    (runProf today pages).emitted =
      (numberFrom 1 pages).map
        (fun s => (drawPageNumberProf today pages.length s).code) := by
  unfold runProf
  rw [ncSave_emitted, show (initCanvas : CanvasState) =
      CanvasState.mk (CoreState.mk 1 []) [] [] from rfl, buildPages_spec]
  simp [numberFrom_length]

theorem runSimple_emitted (pages : List (List String)) :
    (runSimple pages).emitted =
      (numberFrom 1 pages).map
        (fun s => (drawPageNumberSimple pages.length s).code) := by
  unfold runSimple
  rw [ncSave_emitted, show (initCanvas : CanvasState) =
      CanvasState.mk (CoreState.mk 1 []) [] [] from rfl, buildPages_spec]
  simp [numberFrom_length]

theorem runReal_emitted (pages : List (List String)) :
    (runReal pages).emitted =
      (numberFrom 0 pages).map
        (fun s => (drawPageNumberReal (CoreState.mk (s.pageNumber + 1) s.code)).code) := by
  unfold runReal
  rw [ncSaveReal_emitted, show (initCanvasReal : CanvasState) =
      CanvasState.mk (CoreState.mk 0 []) [] [] from rfl, buildPages_spec]
  simp

theorem filterMap_const_none {A B : Type} :
    forall (l : List A), l.filterMap (fun _ => (none : Option B)) = []
  | [] => rfl
  | a :: l => by simp [List.filterMap_cons, filterMap_const_none l]

theorem stampedNumbers_nil : stampedNumbers [] = [] := rfl

theorem stampedNumbers_pageOfDoc (p : List String) (rest : List (List PageOp))
    (extra : List PageOp) :
    stampedNumbers ((p.map PageOp.doc ++ extra) :: rest) =
      stampedNumbers [extra] ++ stampedNumbers rest := by
  unfold stampedNumbers
  simp only [List.flatten_cons, List.flatten_append, List.filterMap_append,
    List.flatten_nil, List.append_nil]
  rw [List.filterMap_map]
  rw [show ((fun op => match op with
      | PageOp.pageNum i => some i
      | _ => none) ∘ PageOp.doc) = fun _ => (none : Option Nat) from rfl]
  rw [filterMap_const_none]
  simp

theorem drawReal_code_pos (k : Nat) (c : List PageOp) (h : 1 ≤ k) :
    (drawPageNumberReal (CoreState.mk (k + 1) c)).code = c ++ [PageOp.pageNum (k + 1)] := by
  unfold drawPageNumberReal
  rw [if_pos (show 1 < (CoreState.mk (k + 1) c).pageNumber by simp; omega)]

theorem drawReal_code_zero (c : List PageOp) :
    (drawPageNumberReal (CoreState.mk (0 + 1) c)).code = c := by
  unfold drawPageNumberReal
  rw [if_neg (show ¬ 1 < (CoreState.mk (0 + 1) c).pageNumber by simp)]

theorem stamped_real_pos : forall (pages : List (List String)) (k : Nat), 1 ≤ k ->
    stampedNumbers ((numberFrom k pages).map
        (fun s => (drawPageNumberReal (CoreState.mk (s.pageNumber + 1) s.code)).code)) =
      List.range' (k + 1) pages.length
  | [], k, _ => by simp [numberFrom, stampedNumbers]
  | p :: ps, k, hk => by
    simp only [numberFrom, List.map_cons]
    rw [drawReal_code_pos k (p.map PageOp.doc) hk]
    rw [stampedNumbers_pageOfDoc p _ [PageOp.pageNum (k + 1)]]
    rw [stamped_real_pos ps (k + 1) (by omega)]
    have hone : stampedNumbers [[PageOp.pageNum (k + 1)]] = [k + 1] := rfl
    rw [hone]
    simp [List.range'_succ]

theorem stamped_real_zero : forall (pages : List (List String)),
    stampedNumbers ((numberFrom 0 pages).map
        (fun s => (drawPageNumberReal (CoreState.mk (s.pageNumber + 1) s.code)).code)) =
      List.range' 2 (pages.length - 1)
  | [] => by simp [numberFrom, stampedNumbers]
  | p :: ps => by
    simp only [numberFrom, List.map_cons]
    rw [drawReal_code_zero (p.map PageOp.doc)]
    rw [show (p.map PageOp.doc) :: (List.map (fun s => (drawPageNumberReal
          (CoreState.mk (s.pageNumber + 1) s.code)).code) (numberFrom (0 + 1) ps)) =
        (p.map PageOp.doc ++ []) :: (List.map (fun s => (drawPageNumberReal
          (CoreState.mk (s.pageNumber + 1) s.code)).code) (numberFrom (0 + 1) ps)) by simp]
    rw [stampedNumbers_pageOfDoc p _ []]
    rw [show (0 + 1) = 1 from rfl]
    rw [stamped_real_pos ps 1 le_rfl]
    simp [stampedNumbers]

/-! ## Characterization of the simple draw loop -/

theorem drawnLinesSimple_take (charCount : Nat) (words : List String) :
    drawnLinesSimple charCount words = (wrapLines words).take (maxLinesFor charCount) := by
  unfold drawnLinesSimple calcHeightSimple maxLinesFor
  split_ifs with h1 h2 h3
  · refine drawLoop_take _ 2 _ ?_ ?_
    · intro i hi
      interval_cases i <;> norm_num [inch]
    · norm_num [inch]
  · refine drawLoop_take _ 4 _ ?_ ?_
    · intro i hi
      interval_cases i <;> norm_num [inch]
    · norm_num [inch]
  · refine drawLoop_take _ 5 _ ?_ ?_
    · intro i hi
      interval_cases i <;> norm_num [inch]
    · norm_num [inch]
  · refine drawLoop_take _ 7 _ ?_ ?_
    · intro i hi
      interval_cases i <;> norm_num [inch]
    · norm_num [inch]

/-! ## Claim theorems -/

/-- Claim C1, counterexample: it is not the case that every try/except
block in the repository wraps only optional static-image export.  The
blocks at `create_fortune500_pdf.py` lines 311-315 (image embedding),
761-771 (whole-PDF build) and 765-768 (subprocess call), and
`create_pdf_simple.py` lines 533-545 (whole-PDF build), wrap other
operations. -/
theorem C1_try_except_counterexample :
    ¬ ∀ t ∈ tryBlocks, ∀ k ∈ t.wrapped, k = OpKind.imageExport := by
  decide

/-- Claim C1, amended: every try/except block either wraps only
best-effort export operations (static-image export, possibly together
with the figure construction or HTML export it accompanies), or is one of
the three other patterns: per-image embedding into the PDF story,
whole-report PDF building at an entry point, or the subprocess call that
opens the finished PDF. -/
theorem C1_try_except_scope (t : TryBlock) (ht : t ∈ tryBlocks) :
    (∀ k ∈ t.wrapped, k = OpKind.imageExport ∨ k = OpKind.figureCreation ∨
      k = OpKind.htmlExport) ∨
    t.wrapped = [OpKind.imageEmbed] ∨ t.wrapped = [OpKind.pdfBuild] ∨
    t.wrapped = [OpKind.subprocessCall] := by
  fin_cases ht <;> decide

/-- Witness for C1's amended theorem, at the `create_fortune500_pdf.py`
lines 311-315 block. -/
theorem C1_try_except_scope_witness :
    (∀ k ∈ (⟨"create_fortune500_pdf.py", 311, 315,
        [OpKind.imageEmbed]⟩ : TryBlock).wrapped,
      k = OpKind.imageExport ∨ k = OpKind.figureCreation ∨ k = OpKind.htmlExport) ∨
    (⟨"create_fortune500_pdf.py", 311, 315, [OpKind.imageEmbed]⟩ : TryBlock).wrapped =
      [OpKind.imageEmbed] ∨
    (⟨"create_fortune500_pdf.py", 311, 315, [OpKind.imageEmbed]⟩ : TryBlock).wrapped =
      [OpKind.pdfBuild] ∨
    (⟨"create_fortune500_pdf.py", 311, 315, [OpKind.imageEmbed]⟩ : TryBlock).wrapped =
      [OpKind.subprocessCall] :=
  C1_try_except_scope ⟨"create_fortune500_pdf.py", 311, 315, [OpKind.imageEmbed]⟩
    (by decide)

/-- Claim C2, counterexample: chart elements are colored with hexes
outside any red/gray/white/black set — the hazard bars of
`create_roi_comparison` use the blue `#1E40AF` and the donut of
`create_cost_containment_donut` uses the green `#059669` — and the color
tables of `create_cap_graphics.py` and `fortune500_graphics.py` are not
the same set (even their reds differ). -/
theorem C2_palette_counterexample :
    "#1E40AF" ∈ roiComparisonHazardColors ∧ "#1E40AF" ∉ brandCore ∧
    "#059669" ∈ fortuneDonutColors ∧ "#059669" ∉ brandCore ∧
    capColors.map Prod.snd ≠ arcColorsF500.map Prod.snd := by
  decide

/-- Claim C2, amended: chart colors are not drawn from one fixed
red/gray/white/black set shared across the scripts.  The color tables of
`create_cap_graphics.py` and `fortune500_graphics.py` are different value
sets and their primary reds differ; the tables contain entries beyond
red/gray/white/black (blue `#1E40AF` in `cap_colors`; dark blue `#2C5282`
and green `#059669` in `ARC_COLORS`); the documented brand core
`#CC0000`/`#6B7C93`/`#FFFFFF`/`#000000` is contained in the `ARC_COLORS`
and `create_20_visualizations` tables but not in `cap_colors`; and charts
also apply inline hex literals that appear in no table — `#F0A0A0` in the
cost-containment donut and `#E53E3E`, `#F0A0A0`, `#CBD5E0` in the
partner-distribution pie of `Python/create_20_visualizations.py`. -/
theorem C2_palette_amended :
    capColors.map Prod.snd ≠ arcColorsF500.map Prod.snd ∧
    colorOf capColors "primary" ≠ colorOf arcColorsF500 "primary" ∧
    "#1E40AF" ∈ capColors.map Prod.snd ∧
    "#2C5282" ∈ arcColorsF500.map Prod.snd ∧
    "#059669" ∈ arcColorsF500.map Prod.snd ∧
    brandCore ⊆ arcColorsF500.map Prod.snd ∧
    brandCore ⊆ viz20Colors.map Prod.snd ∧
    ¬ brandCore ⊆ capColors.map Prod.snd ∧
    ("#F0A0A0" ∈ viz20DonutColors ∧ "#F0A0A0" ∉ viz20Colors.map Prod.snd) ∧
    ("#E53E3E" ∈ viz20PartnerColors ∧ "#E53E3E" ∉ viz20Colors.map Prod.snd) ∧
    ("#CBD5E0" ∈ viz20PartnerColors ∧ "#CBD5E0" ∉ viz20Colors.map Prod.snd) := by
  refine ⟨by decide, by decide, by decide, by decide, by decide, ?_, ?_, ?_,
    by decide, by decide, by decide⟩
  · intro c hc
    fin_cases hc <;> decide
  · intro c hc
    fin_cases hc <;> decide
  · intro hsub
    exact absurd (hsub (show "#CC0000" ∈ brandCore by decide)) (by decide)

/-- Claim C3, counterexample: `create_3d_scatter` perturbs its data with
unseeded random draws, so two calls with different draws return different
figures — the x-coordinates already differ at the first point. -/
theorem C3_randomness_counterexample :
    create_3d_scatter (fun _ => 0) ≠ create_3d_scatter (fun _ => 1) := by
  intro h
  have h2 := congrArg (fun f => f.x.headD 0) h
  simp only [create_3d_scatter, scatter3dBaseRoi, List.replicate, List.flatten_cons,
    List.flatten_nil, List.cons_append, addNoise, List.headD_cons] at h2
  norm_num at h2

/-- Claim C3, amended: visualization functions that transcribe literal
data only are deterministic — `create_roi_by_disaster` returns the same
figure whatever the random stream — but functions of
`create_cool_visualizations_fixed.py` that add unseeded noise, such as
`create_3d_scatter`, are not. -/
theorem C3_determinism_amended (noise1 noise2 : ℕ → ℚ) :
    create_roi_by_disaster noise1 = create_roi_by_disaster noise2 := rfl

/-- Claim C4: in the `NumberedCanvas` of `create_professional_pdf.py`,
every `showPage` during layout saves the page state and emits nothing;
`save` then emits exactly one page per saved state, and the page at index
`i` carries the stamp `Page (i+1) of N` where `N` is both the number of
saved states and the total page count. -/
theorem C4_numbered_canvas (today : String) (pages : List (List String)) :
    (buildPages pages initCanvas).emitted = [] ∧
    (buildPages pages initCanvas).saved.length = pages.length ∧
    (runProf today pages).emitted.length = pages.length ∧
    ∀ i : ℕ, i < pages.length →
      (runProf today pages).emitted.getD i [] =
        (pages.getD i []).map PageOp.doc ++
          [PageOp.headerText "Community Adaptation Program Evaluation Report",
           PageOp.headerText today,
           PageOp.pageStamp (i + 1) pages.length,
           PageOp.headerRule] := by
  have hb : buildPages pages initCanvas =
      CanvasState.mk (CoreState.mk (1 + pages.length) [])
        ([] ++ numberFrom 1 pages) [] := by
    rw [show (initCanvas : CanvasState) = CanvasState.mk (CoreState.mk 1 []) [] []
      from rfl, buildPages_spec]
  refine ⟨by rw [hb], by rw [hb]; simp [numberFrom_length], ?_, ?_⟩
  · rw [runProf_emitted]
    simp [numberFrom_length]
  · intro i hi
    rw [runProf_emitted,
      getD_map_of_lt (fun s => (drawPageNumberProf today pages.length s).code) []
        (CoreState.mk 0 []) (numberFrom 1 pages) i
        (by rw [numberFrom_length]; exact hi),
      numberFrom_getD pages 1 i hi, Nat.add_comm 1 i]
    simp [drawPageNumberProf]

/-- Witness for C4 at a concrete two-page document, second page. -/
theorem C4_numbered_canvas_witness :
    (runProf "September 2025" [["intro"], ["findings"]]).emitted.getD 1 [] =
      (([["intro"], ["findings"]] : List (List String)).getD 1 []).map PageOp.doc ++
        [PageOp.headerText "Community Adaptation Program Evaluation Report",
         PageOp.headerText "September 2025",
         PageOp.pageStamp (1 + 1) ([["intro"], ["findings"]] : List (List String)).length,
         PageOp.headerRule] :=
  (C4_numbered_canvas "September 2025" [["intro"], ["findings"]]).2.2.2 1 (by decide)

set_option maxRecDepth 100000 in
/-- Claim C5, counterexample: the simple `CalloutBox.draw` does not
render the full content — eight 65-character words wrap to eight lines of
which only seven fit above the 0.2-inch floor, so the drawn words are a
strict prefix of `content.split()`. -/
theorem C5_full_render_counterexample :
    drawnWordsSimple (joinWords demoWords).length demoWords ≠ demoWords := by
  unfold drawnWordsSimple
  rw [drawnLinesSimple_take]
  decide

/-- Claim C5, amended: the simple `CalloutBox.draw` draws exactly the
longest prefix of the wrapped lines whose baselines stay above 0.2 inch
(2, 4, 5 or 7 lines according to the computed box height), and it renders
the full content precisely when the wrap fits in that many lines. -/
theorem C5_truncation_amended (charCount : ℕ) (words : List String)
    (h : ∀ w ∈ words, w ≠ "") :
    drawnLinesSimple charCount words = (wrapLines words).take (maxLinesFor charCount) ∧
    ((wrapLines words).length ≤ maxLinesFor charCount →
      drawnWordsSimple charCount words = words) := by
  refine ⟨drawnLinesSimple_take charCount words, fun hlen => ?_⟩
  unfold drawnWordsSimple
  rw [drawnLinesSimple_take, List.take_of_length_le hlen, wrapLines_flatten]

/-- Witness for C5's amended theorem: a two-word content is rendered in
full. -/
theorem C5_truncation_amended_witness :
    drawnWordsSimple 30 ["hello", "world"] = ["hello", "world"] :=
  (C5_truncation_amended 30 ["hello", "world"] (by decide)).2 (by decide)

/-- Claim C6, counterexample: `add_visualization` of
`create_fortune500_pdf.py` has failure-recovery semantics — when the
image fails to load it substitutes the placeholder paragraph
`[Visualization: <title>]`, an element the success path never produces. -/
theorem C6_fallback_counterexample :
    Flow.para "[Visualization: ROI Analysis]" ∈
      addVisualization true false "roi.png" "ROI Analysis" "" [] ∧
    Flow.para "[Visualization: ROI Analysis]" ∉
      addVisualization true true "roi.png" "ROI Analysis" "" [] := by
  decide

/-- Claim C6, amended: `add_visualization` is the failure-recovery point:
on an image-load failure it appends the bracketed placeholder paragraph
in place of the image, and on a missing file it appends a file-not-found
paragraph, continuing the story in both cases. -/
theorem C6_fallback_amended (vizPath title : String) :
    addVisualization true false vizPath title "" [] =
      [Flow.para title, Flow.para ("[Visualization: " ++ title ++ "]"),
       Flow.spacer 1 12] ∧
    addVisualization false true vizPath title "" [] =
      [Flow.para title,
       Flow.para ("[Visualization: " ++ title ++ " - File not found: " ++ vizPath ++ "]"),
       Flow.spacer 1 12] :=
  ⟨rfl, rfl⟩

/-- Claim C7, counterexample: not every script calls chart-construction
functions — `create_fortune500_pdf.py`, `create_pdf_simple.py` and
`create_real_cap_pdf.py` assemble their PDFs without constructing any
chart. -/
theorem C7_script_pattern_counterexample :
    ¬ ∀ s ∈ scripts, s.definesLiteralData = true ∧
      s.callsChartConstruction = true ∧ s.appliesBrandColors = true ∧
      s.outputs ≠ [] := by
  decide

/-- Claim C7, amended: every script defines literal data, applies the
brand colors and writes at least one output file, and every script except
the three PDF-assembly scripts also calls chart-construction functions. -/
theorem C7_script_pattern (s : ScriptRun) (hs : s ∈ scripts) :
    s.definesLiteralData = true ∧ s.appliesBrandColors = true ∧
    s.outputs ≠ [] ∧
    (s.callsChartConstruction = true ∨ s.name ∈ pdfAssemblyScripts) := by
  fin_cases hs <;> decide

/-- Witness for C7's amended theorem, at `create_cap_graphics.py`. -/
theorem C7_script_pattern_witness :
    (⟨"create_cap_graphics.py", true, true, true,
        [FileKind.html, FileKind.png]⟩ : ScriptRun).definesLiteralData = true ∧
    (⟨"create_cap_graphics.py", true, true, true,
        [FileKind.html, FileKind.png]⟩ : ScriptRun).appliesBrandColors = true ∧
    (⟨"create_cap_graphics.py", true, true, true,
        [FileKind.html, FileKind.png]⟩ : ScriptRun).outputs ≠ [] ∧
    ((⟨"create_cap_graphics.py", true, true, true,
        [FileKind.html, FileKind.png]⟩ : ScriptRun).callsChartConstruction = true ∨
      (⟨"create_cap_graphics.py", true, true, true,
        [FileKind.html, FileKind.png]⟩ : ScriptRun).name ∈ pdfAssemblyScripts) :=
  C7_script_pattern ⟨"create_cap_graphics.py", true, true, true,
    [FileKind.html, FileKind.png]⟩ (by decide)

/-- Claim C8: for every word list with nonempty words (as `content.split()`
produces), the wrapping loop of the simple `CalloutBox.draw` yields lines
that either render to at most 65 characters or consist of a single word
longer than 65 characters, and the concatenation of the lines' words in
order is the original word list. -/
theorem C8_wrap_loop (words : List String) (h : ∀ w ∈ words, w ≠ "") :
    (∀ l ∈ wrapLines words,
      (joinWords l).length ≤ maxCharsPerLine ∨
        (l.length = 1 ∧ maxCharsPerLine < (joinWords l).length)) ∧
    (wrapLines words).flatten = words := by
  refine ⟨?_, wrapLines_flatten words⟩
  intro l hl
  rcases wrapLines_good words l hl with hg | hg
  · exact Or.inl hg
  · by_cases hlen : (joinWords l).length ≤ maxCharsPerLine
    · exact Or.inl hlen
    · exact Or.inr ⟨hg, lt_of_not_le hlen⟩

/-- Witness for C8 at a concrete word list. -/
theorem C8_wrap_loop_witness :
    (wrapLines ["alpha", "beta"]).flatten = ["alpha", "beta"] :=
  (C8_wrap_loop ["alpha", "beta"] (by decide)).2

/-- Claim C9: both `_calculate_height` functions are monotone
non-decreasing in the content length; the `create_pdf_simple.py` version
lies between 1.0 and 2.0 inches and the `create_professional_pdf.py`
version is at least 1.5 inches. -/
theorem C9_height_monotone :
    (∀ m n : ℕ, m ≤ n →
      calcHeightSimple m ≤ calcHeightSimple n ∧
        calcHeightProf m ≤ calcHeightProf n) ∧
    (∀ n : ℕ, 1.0 * inch ≤ calcHeightSimple n ∧ calcHeightSimple n ≤ 2.0 * inch) ∧
    (∀ n : ℕ, 1.5 * inch ≤ calcHeightProf n) := by
  refine ⟨fun m n hmn => ⟨?_, ?_⟩, fun n => ⟨?_, ?_⟩, fun n => le_max_left _ _⟩
  · unfold calcHeightSimple
    split_ifs <;> first | (exfalso; omega) | norm_num [inch]
  · have hc : (m : ℚ) ≤ (n : ℚ) := Nat.cast_le.mpr hmn
    unfold calcHeightProf
    apply max_le_max le_rfl
    have h2 : (0.5 + (m : ℚ) / 50 * 0.2) ≤ (0.5 + (n : ℚ) / 50 * 0.2) := by linarith
    have hi : (0 : ℚ) ≤ inch := by norm_num [inch]
    exact mul_le_mul_of_nonneg_right h2 hi
  · unfold calcHeightSimple
    split_ifs <;> norm_num [inch]
  · unfold calcHeightSimple
    split_ifs <;> norm_num [inch]

/-- Witness for C9 at concrete lengths 40 and 160. -/
theorem C9_height_monotone_witness :
    calcHeightSimple 40 ≤ calcHeightSimple 160 ∧
      calcHeightProf 40 ≤ calcHeightProf 160 :=
  C9_height_monotone.1 40 160 (by decide)

/-- Claim C10, counterexample: in `create_real_cap_pdf.py` the numbers
actually stamped on a two-page document are `[2]` — the sequence of
stamped numbers starts at 2, not at 1, because the first page is skipped. -/
theorem C10_page_numbering_counterexample :
    stampedNumbers (runReal [["body1"], ["body2"]]).emitted = [2] ∧
    (stampedNumbers (runReal [["body1"], ["body2"]]).emitted).headD 0 ≠ 1 := by
  decide

/-- Claim C10, amended: in both `create_pdf_simple.py` and
`create_real_cap_pdf.py` the first page gets no header and no page
number, every later page at index `i` is stamped with its own number
`i + 1`, and in `create_real_cap_pdf.py` the stamped numbers are the
consecutive integers starting at 2. -/
theorem C10_page_numbering_amended (pages : List (List String)) :
    ((runSimple pages).emitted.getD 0 [] = (pages.getD 0 []).map PageOp.doc ∧
     (runReal pages).emitted.getD 0 [] = (pages.getD 0 []).map PageOp.doc) ∧
    (∀ i : ℕ, 1 ≤ i → i < pages.length →
      (runSimple pages).emitted.getD i [] =
        (pages.getD i []).map PageOp.doc ++
          [PageOp.headerText "Community Adaptation Program Evaluation Report",
           PageOp.headerText "September 2025",
           PageOp.headerRule,
           PageOp.pageStamp (i + 1) pages.length] ∧
      (runReal pages).emitted.getD i [] =
        (pages.getD i []).map PageOp.doc ++ [PageOp.pageNum (i + 1)]) ∧
    stampedNumbers (runReal pages).emitted = List.range' 2 (pages.length - 1) := by
  refine ⟨⟨?_, ?_⟩, fun i h1 h2 => ⟨?_, ?_⟩, ?_⟩
  · rcases Nat.eq_zero_or_pos pages.length with hz | hp
    · rw [List.length_eq_zero.mp hz]
      rfl
    · rw [runSimple_emitted,
        getD_map_of_lt (fun s => (drawPageNumberSimple pages.length s).code) []
          (CoreState.mk 0 []) (numberFrom 1 pages) 0
          (by rw [numberFrom_length]; exact hp),
        numberFrom_getD pages 1 0 hp]
      simp [drawPageNumberSimple]
  · rcases Nat.eq_zero_or_pos pages.length with hz | hp
    · rw [List.length_eq_zero.mp hz]
      rfl
    · rw [runReal_emitted,
        getD_map_of_lt
          (fun s => (drawPageNumberReal (CoreState.mk (s.pageNumber + 1) s.code)).code)
          [] (CoreState.mk 0 []) (numberFrom 0 pages) 0
          (by rw [numberFrom_length]; exact hp),
        numberFrom_getD pages 0 0 hp]
      exact drawReal_code_zero _
  · rw [runSimple_emitted,
      getD_map_of_lt (fun s => (drawPageNumberSimple pages.length s).code) []
        (CoreState.mk 0 []) (numberFrom 1 pages) i
        (by rw [numberFrom_length]; exact h2),
      numberFrom_getD pages 1 i h2, Nat.add_comm 1 i]
    unfold drawPageNumberSimple
    rw [if_pos (show 1 < (CoreState.mk (i + 1) ((pages.getD i []).map PageOp.doc)).pageNumber
      by show 1 < i + 1; omega)]
  · rw [runReal_emitted,
      getD_map_of_lt
        (fun s => (drawPageNumberReal (CoreState.mk (s.pageNumber + 1) s.code)).code)
        [] (CoreState.mk 0 []) (numberFrom 0 pages) i
        (by rw [numberFrom_length]; exact h2),
      numberFrom_getD pages 0 i h2, Nat.zero_add i]
    exact drawReal_code_pos i _ h1
  · rw [runReal_emitted, stamped_real_zero]

/-- Witness for C10's amended theorem at a concrete three-page document,
second page of the `create_real_cap_pdf.py` canvas. -/
theorem C10_page_numbering_amended_witness :
    (runReal [["a1"], ["a2"], ["a3"]]).emitted.getD 1 [] =
      (([["a1"], ["a2"], ["a3"]] : List (List String)).getD 1 []).map PageOp.doc ++
        [PageOp.pageNum (1 + 1)] :=
  ((C10_page_numbering_amended [["a1"], ["a2"], ["a3"]]).2.1 1 le_rfl (by decide)).2

end CapData
